import Mathlib

/-!
Verification of the Goodfire monthly billing invoice generator
(`src/app.py`) against its natural-language specification.

The pandas dataframe is modelled as a list of rows with optional string
cells (`none` models a pandas missing value, i.e. `NaN`); currency
amounts are modelled as exact rationals; the fragments of library
behaviour the program relies on (`pandas.to_datetime`, Python
`str.split`, `str.strip`, `%B` month names, `%02d` and `%.2f`
formatting) are modelled by executable Lean functions, restricted to the
value shapes the CSV export produces.
-/

/-- One CSV row (a `LeadRecord` in the spec), holding the columns that
`generate_invoice_pdf` and the filter pipeline read.  `none` models a
pandas missing value (`NaN`) in an existing column; an absent column is
tracked on the dataset, not on the row. -/
structure Row where
  display_name : String
  mls : Option String
  listing_date : Option String
  state : Option String
  county : Option String
  apn : Option String
  status : Option String
deriving DecidableEq

/-- The filter configuration surface of the app (checkbox / selectbox /
month / year inputs), the spec's `FilterCriteria`. -/
structure Criteria where
  byStatus : Bool
  statusVal : String
  byDate : Bool
  month : Nat
  year : Nat
  mlsOnly : Bool
deriving DecidableEq

/-- The uploaded dataframe: its rows plus which of the three relevant
columns exist (`has_status`, `has_listing_date`, `has_mls` in the code). -/
structure Dataset where
  hasStatus : Bool
  hasDate : Bool
  hasMls : Bool
  rows : List Row
deriving DecidableEq

/-- A parsed calendar date (what a successful `pandas.to_datetime` call
yields, projected to the fields the program uses). -/
structure PDate where
  year : Nat
  month : Nat
  day : Nat
deriving DecidableEq

/-- Numeric value of a list of decimal digit characters. -/
def digitsVal (l : List Char) : Nat :=
  l.foldl (fun a c => 10 * a + (c.toNat - 48)) 0

/-- Does `p` occur at the head of `l`? -/
def beginsL : List Char → List Char → Bool
  | [], _ => true
  | _ :: _, [] => false
  | p :: ps, c :: cs => p == c && beginsL ps cs

/-- Python's `pat in s` substring test, over character lists. -/
def hasSub (pat : List Char) : List Char → Bool
  | [] => beginsL pat []
  | c :: cs => beginsL pat (c :: cs) || hasSub pat cs

/-- The characters before the first occurrence of `pat`
(Python's `s.split(pat)[0]`); the whole list when `pat` is absent. -/
def beforeSub (pat : List Char) : List Char → List Char
  | [] => []
  | c :: cs => if beginsL pat (c :: cs) then [] else c :: beforeSub pat cs

/-- Python's `str.strip()` on a character list. -/
def stripChars (l : List Char) : List Char :=
  ((l.dropWhile (fun c => c.isWhitespace)).reverse.dropWhile
      (fun c => c.isWhitespace)).reverse

/-- Python's `str.strip()`. -/
def pyStrip (s : String) : String :=
  String.mk (stripChars s.toList)

/-- Python's no-argument `str.split()`: whitespace-delimited tokens,
empty tokens dropped. -/
def wsTokens (l : List Char) : List (List Char) :=
  (l.splitOnP (fun c => c.isWhitespace)).filter (fun t => !t.isEmpty)

/-- A component of a time-of-day: non-empty, all digits, bounded. -/
def timeOK (l : List Char) (mx : Nat) : Bool :=
  !l.isEmpty && l.all (fun c => c.isDigit) && decide (digitsVal l ≤ mx)

/-- A plausible `HH:MM` or `HH:MM:SS` time-of-day string. -/
def validTime (t : List Char) : Bool :=
  match t.splitOn ':' with
  | [h, m] => timeOK h 23 && timeOK m 59
  | [h, m, s] => timeOK h 23 && timeOK m 59 && timeOK s 59
  | _ => false

/-- Parse a `YYYY-MM-DD` chunk: 4-digit year, 1-2 digit month and day,
month in 1..12 and day in 1..31.  (Real `pandas` additionally checks the
day against the month length; the calendar check is approximated, which
is irrelevant to the theorems below.) -/
def parseYMD (l : List Char) : Option PDate :=
  match l.splitOn '-' with
  | [y, m, d] =>
    if (y.length == 4) && y.all (fun c => c.isDigit)
        && !m.isEmpty && (m.length ≤ 2 : Bool) && m.all (fun c => c.isDigit)
        && !d.isEmpty && (d.length ≤ 2 : Bool) && d.all (fun c => c.isDigit) then
      if 1 ≤ digitsVal m ∧ digitsVal m ≤ 12 ∧ 1 ≤ digitsVal d ∧ digitsVal d ≤ 31 then
        some { year := digitsVal y, month := digitsVal m, day := digitsVal d }
      else none
    else none
  | _ => none

/-- Modelled library behaviour: `pandas.to_datetime` on a scalar string,
restricted to the ISO `YYYY-MM-DD` / `YYYY-MM-DD HH:MM:SS` shapes the
Close.com export produces.  `none` stands for both a raised parse error
and a `NaT` result (the two are indistinguishable to the program: either
way the `strftime` call in the `try` block fails). -/
def parseDate (s : String) : Option PDate :=
  match s.toList.splitOn ' ' with
  | [d] => parseYMD d
  | [d, t] => if validTime t then parseYMD d else none
  | _ => none

/-- `strftime('%-m/%-d/%Y')`: month/day/year with no leading zeros
(years produced by `parseDate` always have four digits). -/
def fmtDate (d : PDate) : String :=
  toString d.month ++ ("/") ++ toString d.day ++ ("/") ++ toString d.year

/-- Python `'%02d' % n`: decimal, left-padded with `0` to two digits. -/
def pad2 (n : Nat) : String :=
  if n < 10 then ("0") ++ toString n else toString n

/-- Round-half-even of the fraction `a / b` (for `b > 0`): the rounding
Python's fixed-point formatting applies. -/
def rhe (a b : ℤ) : ℤ :=
  let f : ℤ := Int.fdiv a b
  let r2 : ℤ := 2 * (a - f * b)
  if r2 < b then f
  else if b < r2 then f + 1
  else if f % 2 = 0 then f else f + 1

/-- Python `'%.2f' % q` for a non-negative amount: two digits after the
decimal point, rounding half-even at the second decimal. -/
def fmt2 (q : ℚ) : String :=
  let n : Nat := (rhe (100 * q.num) (q.den : ℤ)).toNat
  toString (n / 100) ++ (".") ++ pad2 (n % 100)

/-- Uppercase an ASCII letter (what Python `str.upper()` does on the
month names at hand). -/
def upperChar (c : Char) : Char :=
  if 97 ≤ c.toNat ∧ c.toNat ≤ 122 then Char.ofNat (c.toNat - 32) else c

/-- Python `str.upper()` restricted to ASCII text. -/
def pyUpper (s : String) : String :=
  String.mk (s.toList.map upperChar)

/-- The per-line price cell `f"${price_per_listing:.2f}"` (line 92), also
the shape of the total cell (line 138). -/
def money (p : ℚ) : String :=
  ("$") ++ fmt2 p

/-- Status predicate (line 231): the status column equals the selected
status string exactly; a missing value never matches. -/
def statusKeep (sv : String) (r : Row) : Bool :=
  match r.status with
  | some s => s == sv
  | none => false

/-- Date predicate (lines 237-242): `to_datetime(.., errors='coerce')`
followed by `month == billing_month  &  year == billing_year`; a missing
or unparseable value yields `NaT`, whose comparisons are false. -/
def dateKeep (m y : Nat) (r : Row) : Bool :=
  match r.listing_date with
  | none => false
  | some s =>
    match parseDate s with
    | some d => (d.month == m) && (d.year == y)
    | none => false

/-- MLS predicate (line 247): `notna & (value != '')`.  Note: no
whitespace trimming happens here. -/
def mlsKeep (r : Row) : Bool :=
  match r.mls with
  | some s => !(s == "")
  | none => false

/-- A conditional filter step: the boolean-mask row selection when the
step is active, the identity otherwise. -/
def cf (b : Bool) (p : Row → Bool) (l : List Row) : List Row :=
  if b then l.filter p else l

/-- Status filter step (lines 230-232): active iff the checkbox is on
and the status column exists. -/
def filterByStatus (c : Criteria) (ds : Dataset) (l : List Row) : List Row :=
  cf (c.byStatus && ds.hasStatus) (statusKeep c.statusVal) l

/-- Listing-date filter step (lines 235-242): active iff the checkbox is
on and the listing-date column exists. -/
def filterByDate (c : Criteria) (ds : Dataset) (l : List Row) : List Row :=
  cf (c.byDate && ds.hasDate) (dateKeep c.month c.year) l

/-- MLS-presence filter step (lines 246-248): active iff the checkbox is
on and the MLS column exists. -/
def filterMlsOnly (c : Criteria) (ds : Dataset) (l : List Row) : List Row :=
  cf (c.mlsOnly && ds.hasMls) mlsKeep l

/-- The full filter pipeline in source order (lines 227-248):
status, then listing date, then MLS presence. -/
def applyFilters (c : Criteria) (ds : Dataset) : List Row :=
  filterMlsOnly c ds (filterByDate c ds (filterByStatus c ds ds.rows))

/-- An error escaping the per-row rendering loop. -/
inductive CellError
  | indexError
deriving DecidableEq

/-- The date cell of one table row (lines 52-61): format a parseable
date as `M/D/YYYY`; on failure fall back to
`str(value).split()[0] if value else ''`; a missing value gives `''`.
The fallback indexes `[0]` into the token list, which raises
`IndexError` when the raw value is non-empty but has no tokens. -/
def dateCellE (v : Option String) : Except CellError String :=
  match v with
  | none => Except.ok ("")
  | some s =>
    match parseDate s with
    | some d => Except.ok (fmtDate d)
    | none =>
      if s = "" then Except.ok ("")
      else
        match wsTokens s.toList with
        | [] => Except.error CellError.indexError
        | t :: _ => Except.ok (String.mk t)

/-- The MLS cell of one table row (line 63). -/
def mlsCell (r : Row) : String :=
  match r.mls with
  | some s => s
  | none => ""

/-- The literal substring used to truncate display names (line 73). -/
def apnPat : List Char :=
  String.toList ("APN")

/-- The base property name (lines 72-76): everything before the first
`APN` occurrence, stripped — but the display name is used verbatim when
`APN` does not occur in it. -/
def baseName (dn : String) : String :=
  if hasSub apnPat dn.toList then
    pyStrip (String.mk (beforeSub apnPat dn.toList))
  else dn

/-- The property-description components in source order (lines 66-88):
state, county, base name, `APN# <value>`, each only when truthy. -/
def propertyParts (r : Row) : List String :=
  (match r.state with
   | some s => if s = "" then [] else [s]
   | none => []) ++
  (match r.county with
   | some s => if s = "" then [] else [s]
   | none => []) ++
  (if baseName r.display_name = "" then [] else [baseName r.display_name]) ++
  (match r.apn with
   | some a => if a = "" then [] else [("APN# ") ++ a]
   | none => [])

/-- The property-description cell (line 90): `' '.join(property_parts)`. -/
def propertyDesc (r : Row) : String :=
  String.intercalate (" ") (propertyParts r)

/-- One data row of the PDF table (lines 50-94). -/
def lineItem (p : ℚ) (r : Row) : Except CellError (List String) :=
  match dateCellE r.listing_date with
  | Except.error e => Except.error e
  | Except.ok ds => Except.ok ([ds, mlsCell r, propertyDesc r, money p])

/-- The data rows of the PDF table, in input order; the loop aborts at
the first row whose date cell raises. -/
def tableRows (p : ℚ) : List Row → Except CellError (List (List String))
  | [] => Except.ok []
  | r :: rs =>
    match lineItem p r with
    | Except.error e => Except.error e
    | Except.ok c =>
      match tableRows p rs with
      | Except.error e => Except.error e
      | Except.ok rest => Except.ok (c :: rest)

/-- The header row of the PDF table (line 48): note the fourth cell is
the billed company's name, not the unit price. -/
def headerRow (company : String) : List String :=
  [("Date"), ("MLS"), ("Property"), company]

/-- The full PDF table contents: header row first, then one row per
surviving record. -/
def tableData (rows : List Row) (company : String) (p : ℚ) :
    Except CellError (List (List String)) :=
  match tableRows p rows with
  | Except.error e => Except.error e
  | Except.ok body => Except.ok (headerRow company :: body)

/-- The invoice total (lines 97 and 263):
`len(filtered_df) * price_per_listing`, exact. -/
def total_amount (filtered : List Row) (p : ℚ) : ℚ :=
  (filtered.length : ℚ) * p

/-- The rendered total cell (line 138): `f'${total_amount:.2f}'` —
rounding to two decimals happens here, at display time only. -/
def totalCell (filtered : List Row) (p : ℚ) : String :=
  ("$") ++ fmt2 (total_amount filtered p)

/-- Month names as `strftime('%B')` yields them, index 0 = January. -/
def monthNames : List String :=
  [("January"), ("February"), ("March"), ("April"), ("May"), ("June"),
   ("July"), ("August"), ("September"), ("October"), ("November"), ("December")]

/-- The title-construction error: `datetime(year, month, 1)` raises
`ValueError` for a month outside 1..12. -/
inductive TitleError
  | invalidDate
deriving DecidableEq

/-- The title line (lines 42-43):
`datetime(billing_year, billing_month, 1).strftime('%B').upper()`
interpolated into the fixed title text; the `datetime` constructor
validates the month range. -/
def mkTitle (m : Nat) : Except TitleError String :=
  if 1 ≤ m ∧ m ≤ 12 then
    Except.ok (("GOODFIRE REALTY LISTINGS - ")
      ++ pyUpper (monthNames.getD (m - 1) ("")) ++ (" BILLING"))
  else Except.error TitleError.invalidDate

/-- The download filename (line 285):
`f"{billing_year}-{billing_month:02d}-{datetime.now().day:02d}_Goodfire_Realty_Billing.pdf"`.
`y` is the billing year, `m` the billing month, `d` the current day. -/
def filename (y m d : Nat) : String :=
  toString y ++ ("-") ++ pad2 m ++ ("-") ++ pad2 d
    ++ ("_Goodfire_Realty_Billing.pdf")

/-- The base name as claim C4 words it: everything from the first
`APN` onward stripped and surrounding whitespace trimmed — trimming
applied unconditionally. -/
def claimBaseName (dn : String) : String :=
  pyStrip (String.mk (beforeSub apnPat dn.toList))

/-- The APN component as a single (possibly empty) string. -/
def apnComp (o : Option String) : String :=
  match o with
  | some a => if a == "" then ("") else ("APN# ") ++ a
  | none => ""

/-- The property description as claim C4 words it: the non-empty ones
among state, county, trimmed base name and APN token, space-separated. -/
def claimPropertyDesc (r : Row) : String :=
  String.intercalate (" ")
    (List.filter (fun s => !(s == ""))
      [r.state.getD (""), r.county.getD (""), claimBaseName r.display_name,
       apnComp r.apn])

/-- The property description as the amended claim words it: as
`claimPropertyDesc`, except that the base name is the display name used
verbatim when `APN` does not occur in it (trimming happens only in the
`APN` branch). -/
def amendedPropertyDesc (r : Row) : String :=
  String.intercalate (" ")
    (List.filter (fun s => !(s == ""))
      [r.state.getD (""), r.county.getD (""), baseName r.display_name,
       apnComp r.apn])

/-- A row whose display name carries leading whitespace and no `APN`
substring: the code keeps the whitespace, the claim would strip it. -/
def c4row : Row :=
  { display_name := (" 123 Main St"), mls := none, listing_date := none,
    state := some ("TX"), county := none, apn := none, status := none }

/-- A row whose MLS cell is whitespace-only: non-empty for the code's
test, empty after the trimming the claim describes. -/
def c2row : Row :=
  { display_name := (""), mls := some (" "), listing_date := none,
    state := none, county := none, apn := none, status := none }

/-- Criteria with only the MLS-presence filter enabled. -/
def c2crit : Criteria :=
  { byStatus := false, statusVal := (""), byDate := false, month := 1,
    year := 2025, mlsOnly := true }

/-- A dataset holding only the whitespace-MLS row. -/
def c2ds : Dataset :=
  { hasStatus := false, hasDate := false, hasMls := true, rows := [c2row] }

/-- A row with an ordinary non-empty MLS number. -/
def c2goodRow : Row :=
  { display_name := (""), mls := some ("MLS777"), listing_date := none,
    state := none, county := none, apn := none, status := none }

/-- A dataset holding only the ordinary-MLS row. -/
def c2wds : Dataset :=
  { hasStatus := false, hasDate := false, hasMls := true, rows := [c2goodRow] }

/-- Scenario 2 of the spec: listing date `2025-03-07 10:00:00`. -/
def s2row : Row :=
  { display_name := (""), mls := some ("12345"),
    listing_date := some ("2025-03-07 10:00:00"), state := none,
    county := none, apn := none, status := none }

/-- Criteria with only the date filter enabled, for March 2025. -/
def s2crit : Criteria :=
  { byStatus := false, statusVal := (""), byDate := true, month := 3,
    year := 2025, mlsOnly := false }

/-- A dataset holding only the scenario-2 row. -/
def s2ds : Dataset :=
  { hasStatus := true, hasDate := true, hasMls := true, rows := [s2row] }

/-- A plain row with no listing date. -/
def plainRow : Row :=
  { display_name := ("Lot 2"), mls := some ("M1"), listing_date := none,
    state := none, county := none, apn := none, status := none }

/-- Criteria with every filter disabled. -/
def cOff : Criteria :=
  { byStatus := false, statusVal := (""), byDate := false, month := 1,
    year := 2025, mlsOnly := false }

/-- A dataset of five identical plain rows (scenario 5 of the spec). -/
def dsFive : Dataset :=
  { hasStatus := true, hasDate := true, hasMls := true,
    rows := List.replicate 5 plainRow }

/-- A fully populated row for the table-construction witness. -/
def c6row : Row :=
  { display_name := ("Lot 1"), mls := some ("MLS123"),
    listing_date := some ("2025-03-07"), state := some ("TX"),
    county := some ("Harris"), apn := some ("123-45"),
    status := some ("Listed") }

/-- Fuel-driven floor of the base-2 logarithm (`log2f fuel n` is exact
whenever `n < 2 ^ fuel`). -/
def log2f : ℕ → ℕ → ℕ
  | 0, _ => 0
  | fuel + 1, n => if n ≤ 1 then 0 else log2f fuel (n / 2) + 1

/-- Floor of the base-2 logarithm of a natural number (exact below
`2 ^ 128`, far beyond the app's magnitudes). -/
def nlog2 (n : ℕ) : ℕ :=
  log2f 128 n

/-- Floor of the base-2 logarithm of the positive fraction `a / b`. -/
def ilog2 (a b : ℕ) : ℤ :=
  let e0 : ℤ := (nlog2 a : ℤ) - (nlog2 b : ℤ)
  let ok : Bool :=
    if 0 ≤ e0 then decide (b * 2 ^ e0.toNat ≤ a)
    else decide (b ≤ a * 2 ^ (-e0).toNat)
  if ok then e0 else e0 - 1

/-- Modelled from IEEE-754 binary64: the mantissa/scale pair of the
double nearest to the positive fraction `a / b` (round to nearest, ties
to even, 53-bit significand).  The value denoted is `m / 2 ^ sh` for
`sh ≥ 0` and `m * 2 ^ (-sh)` otherwise.  Overflow and subnormals are
outside the model — irrelevant at the app's magnitudes. -/
def dRound (a b : ℕ) : ℤ × ℤ :=
  let e : ℤ := ilog2 a b
  let sh : ℤ := 52 - e
  let m : ℤ :=
    if 0 ≤ sh then rhe ((a : ℤ) * 2 ^ sh.toNat) (b : ℤ)
    else rhe (a : ℤ) ((b : ℤ) * 2 ^ (-sh).toNat)
  (m, sh)

/-- The exact rational value of a mantissa/scale pair. -/
def dval (p : ℤ × ℤ) : ℚ :=
  if 0 ≤ p.2 then (p.1 : ℚ) / ((2 : ℚ) ^ p.2.toNat)
  else (p.1 : ℚ) * ((2 : ℚ) ^ (-p.2).toNat)

/-- Modelled from IEEE-754 binary64: the double nearest to `q`, as an
exact rational.  This is what Python stores for a typed decimal such as
`0.1` and what every float operation returns. -/
def toDouble (q : ℚ) : ℚ :=
  if q = 0 then 0
  else if q < 0 then -(dval (dRound q.num.natAbs q.den))
  else dval (dRound q.num.natAbs q.den)

/-- Binary64 multiplication: the exact product, rounded once to the
nearest double. -/
def floatMul (x y : ℚ) : ℚ :=
  toDouble (x * y)

/-- The invoice total as the program actually computes it (lines 97 and
263) under IEEE-754 binary64 semantics: the record count converts to
double exactly (counts are far below `2 ^ 53`) and multiplies the stored
unit price with one binary64 rounding. -/
def total_amount_double (filtered : List Row) (p : ℚ) : ℚ :=
  floatMul ((filtered.length : ℚ)) p

/-- Three surviving records: the failing count for the exactness claim. -/
def threeRows : List Row :=
  List.replicate 3 plainRow

/-- Membership in the boolean predicate characterising the MLS filter. -/
theorem mlsKeep_iff (r : Row) :
    mlsKeep r = true ↔ ∃ s, r.mls = some s ∧ s ≠ "" := by
  unfold mlsKeep
  cases h : r.mls with
  | none => simp
  | some s => simp [h]

/-- Membership in the boolean predicate characterising the date filter. -/
theorem dateKeep_iff (m y : Nat) (r : Row) :
    dateKeep m y r = true ↔
      ∃ s d, r.listing_date = some s ∧ parseDate s = some d ∧
        d.month = m ∧ d.year = y := by
  unfold dateKeep
  cases h : r.listing_date with
  | none => simp
  | some s =>
    cases hp : parseDate s with
    | none => simp [hp]
    | some d =>
      simp only [hp, Bool.and_eq_true, beq_iff_eq]
      constructor
      · rintro ⟨h1, h2⟩
        exact ⟨s, d, rfl, hp, h1, h2⟩
      · rintro ⟨s2, d2, hs2, hp2, h1, h2⟩
        cases hs2
        rw [hp] at hp2
        cases hp2
        exact ⟨h1, h2⟩

/-- C5: the claim says the date cell never throws.  The code's good
paths behave as described (missing value, parse success, token
fallback), but a non-empty whitespace-only raw value reaches the
fallback `str(value).split()[0]` with an empty token list, and the
`[0]` indexing raises `IndexError` — the construction does throw. -/
theorem c5_date_cell_paths :
    dateCellE (some (" ")) = Except.error CellError.indexError
    ∧ dateCellE none = Except.ok ("")
    ∧ dateCellE (some ("")) = Except.ok ("")
    ∧ dateCellE (some ("2025-03-07 10:00:00")) = Except.ok ("3/7/2025")
    ∧ dateCellE (some ("abc def")) = Except.ok ("abc") :=
  ⟨rfl, rfl, rfl, rfl, rfl⟩

/-- C2 (counterexample): a whitespace-only MLS value survives the MLS
filter although it is empty after trimming, refuting the claimed
"non-empty after trimming whitespace" characterisation. -/
theorem c2_counterexample :
    filterMlsOnly c2crit c2ds c2ds.rows = [c2row]
    ∧ pyStrip ((c2row.mls).getD ("")) = ("") :=
  ⟨rfl, rfl⟩

/-- C2 (amended): with the MLS filter enabled and the MLS column
present, a record survives iff its MLS field is present and not equal
to the empty string — no whitespace trimming is applied. -/
theorem c2_mls_filter_iff (c : Criteria) (ds : Dataset) (l : List Row)
    (r : Row) (hEn : c.mlsOnly = true) (hCol : ds.hasMls = true) :
    r ∈ filterMlsOnly c ds l ↔ r ∈ l ∧ ∃ s, r.mls = some s ∧ s ≠ "" := by
  unfold filterMlsOnly cf
  rw [hEn, hCol]
  simp only [Bool.and_self, if_true, List.mem_filter, mlsKeep_iff]

/-- Witness for C2: an ordinary MLS number passes the filter. -/
theorem c2_witness : c2goodRow ∈ filterMlsOnly c2crit c2wds c2wds.rows :=
  (c2_mls_filter_iff c2crit c2wds c2wds.rows c2goodRow rfl rfl).mpr
    ⟨by decide, ("MLS777"), rfl, by decide⟩

/-- C3: with the date filter enabled and the listing-date column
present, a record survives iff its listing-date field parses and the
parsed month and year equal the configured billing month and year;
missing or unparseable dates are excluded. -/
theorem c3_date_filter_iff (c : Criteria) (ds : Dataset) (l : List Row)
    (r : Row) (hEn : c.byDate = true) (hCol : ds.hasDate = true)
    (_hm1 : 1 ≤ c.month) (_hm2 : c.month ≤ 12) :
    r ∈ filterByDate c ds l ↔
      r ∈ l ∧ ∃ s d, r.listing_date = some s ∧ parseDate s = some d ∧
        d.month = c.month ∧ d.year = c.year := by
  unfold filterByDate cf
  rw [hEn, hCol]
  simp only [Bool.and_self, if_true, List.mem_filter, dateKeep_iff]

/-- Witness for C3 (scenario 2 of the spec): the row listed
`2025-03-07 10:00:00` survives the March 2025 date filter. -/
theorem c3_witness : s2row ∈ filterByDate s2crit s2ds s2ds.rows :=
  (c3_date_filter_iff s2crit s2ds s2ds.rows s2row rfl rfl (by decide)
      (by decide)).mpr
    ⟨by decide, ("2025-03-07 10:00:00"),
      { year := 2025, month := 3, day := 7 }, rfl, rfl, rfl, rfl⟩

/-- Two conditional filter steps commute. -/
theorem cf_comm (b b2 : Bool) (p q : Row → Bool) (l : List Row) :
    cf b p (cf b2 q l) = cf b2 q (cf b p l) := by
  cases b <;> cases b2
  · rfl
  · rfl
  · rfl
  · exact List.filter_comm p q l

/-- A conditional filter step yields a sublist of its input. -/
theorem cf_sub (b : Bool) (p : Row → Bool) (l : List Row) :
    List.Sublist (cf b p l) l := by
  cases b
  · simp [cf]
  · simp [cf]

/-- C7: the three filter steps are independent per-record predicates, so
the pipeline's result is the same under every one of the six application
orders. -/
theorem c7_filter_order (c : Criteria) (ds : Dataset) :
    applyFilters c ds
        = filterMlsOnly c ds (filterByStatus c ds (filterByDate c ds ds.rows))
    ∧ applyFilters c ds
        = filterByDate c ds (filterMlsOnly c ds (filterByStatus c ds ds.rows))
    ∧ applyFilters c ds
        = filterByDate c ds (filterByStatus c ds (filterMlsOnly c ds ds.rows))
    ∧ applyFilters c ds
        = filterByStatus c ds (filterByDate c ds (filterMlsOnly c ds ds.rows))
    ∧ applyFilters c ds
        = filterByStatus c ds (filterMlsOnly c ds (filterByDate c ds ds.rows)) := by
  unfold applyFilters filterMlsOnly filterByDate filterByStatus
  refine ⟨?_, ?_, ?_, ?_, ?_⟩
  · exact congrArg _ (cf_comm _ _ _ _ _)
  · exact cf_comm _ _ _ _ _
  · exact (cf_comm _ _ _ _ _).trans (congrArg _ (cf_comm _ _ _ _ _))
  · exact (congrArg _ (cf_comm _ _ _ _ _)).trans
      ((cf_comm _ _ _ _ _).trans (congrArg _ (cf_comm _ _ _ _ _)))
  · exact (congrArg _ (cf_comm _ _ _ _ _)).trans (cf_comm _ _ _ _ _)

/-- C10: filtering only selects rows — the surviving list is a sublist
of the uploaded rows, so every surviving record is one of the original
records with all of its source-column values unchanged. -/
theorem c10_filter_frame (c : Criteria) (ds : Dataset) :
    List.Sublist (applyFilters c ds) ds.rows
    ∧ ∀ r, r ∈ applyFilters c ds → r ∈ ds.rows := by
  have h : List.Sublist (applyFilters c ds) ds.rows := by
    unfold applyFilters filterMlsOnly filterByDate filterByStatus
    exact ((cf_sub _ _ _).trans (cf_sub _ _ _)).trans (cf_sub _ _ _)
  exact ⟨h, fun r hr => h.subset hr⟩

/-- Witness for C10 at a concrete dataset. -/
theorem c10_witness : List.Sublist (applyFilters s2crit s2ds) s2ds.rows :=
  (c10_filter_frame s2crit s2ds).1

/-- C1: the claim (and spec §4.1) demand exact decimal-safe
multiplication for the total, but the program computes
`len(filtered_df) * price_per_listing` on IEEE-754 binary64 doubles.
At the failing input — three surviving records with a unit price typed
as 0.1 — the stored price is the double `3602879701896397 / 2 ^ 55`,
which is not `1 / 10`; the computed total is the double
`5404319552844596 / 2 ^ 54` (0.30000000000000004…), which differs from
the exact decimal total `3 × (1 / 10) = 3 / 10` and even from the exact
product count × stored price (`total_amount`, the semantics the claim
describes): the float multiplication itself re-rounds. -/
theorem c1_float_total :
    toDouble (1 / 10) = (3602879701896397 : ℚ) / 2 ^ 55
    ∧ toDouble (1 / 10) ≠ 1 / 10
    ∧ total_amount_double threeRows (toDouble (1 / 10))
        = (5404319552844596 : ℚ) / 2 ^ 54
    ∧ total_amount_double threeRows (toDouble (1 / 10))
        ≠ (threeRows.length : ℚ) * (1 / 10)
    ∧ total_amount_double threeRows (toDouble (1 / 10))
        ≠ total_amount threeRows (toDouble (1 / 10)) := by
  have hl3 : threeRows.length = 3 := rfl
  have hc3 : ((3 : ℕ) : ℚ) = 3 := by norm_num
  have h1 : toDouble (1 / 10) = (3602879701896397 : ℚ) / 2 ^ 55 := by
    unfold toDouble
    rw [if_neg (show ¬ ((1 / 10 : ℚ) = 0) by norm_num),
        if_neg (show ¬ ((1 / 10 : ℚ) < 0) by norm_num),
        show ((1 / 10 : ℚ)).num = 1 by norm_num,
        show ((1 / 10 : ℚ)).den = 10 by norm_num,
        show dRound (Int.natAbs 1) 10 = (7205759403792794, 56) from by decide]
    unfold dval
    rw [if_pos (show (0 : ℤ) ≤ (((7205759403792794 : ℤ), (56 : ℤ))).2 from by decide)]
    show ((7205759403792794 : ℤ) : ℚ) / (2 : ℚ) ^ (56 : ℕ)
      = (3602879701896397 : ℚ) / 2 ^ 55
    norm_num
  have h2 : total_amount_double threeRows (toDouble (1 / 10))
      = (5404319552844596 : ℚ) / 2 ^ 54 := by
    unfold total_amount_double floatMul
    rw [h1, hl3, hc3]
    rw [show (3 : ℚ) * ((3602879701896397 : ℚ) / 2 ^ 55)
          = (10808639105689191 : ℚ) / 2 ^ 55 by norm_num]
    have hn2 : ((10808639105689191 : ℚ) / 2 ^ 55).num = (10808639105689191 : ℤ) := by
      norm_num
    have hd2 : ((10808639105689191 : ℚ) / 2 ^ 55).den = (36028797018963968 : ℕ) := by
      norm_num
    unfold toDouble
    rw [if_neg (show ¬ ((10808639105689191 : ℚ) / 2 ^ 55 = 0) by norm_num),
        if_neg (show ¬ ((10808639105689191 : ℚ) / 2 ^ 55 < 0) by norm_num),
        hn2, hd2,
        show dRound (Int.natAbs 10808639105689191) 36028797018963968
          = (5404319552844596, 54) from by decide]
    unfold dval
    rw [if_pos (show (0 : ℤ) ≤ (((5404319552844596 : ℤ), (54 : ℤ))).2 from by decide)]
    show ((5404319552844596 : ℤ) : ℚ) / (2 : ℚ) ^ (54 : ℕ)
      = (5404319552844596 : ℚ) / 2 ^ 54
    norm_num
  have h3 : total_amount threeRows (toDouble (1 / 10))
      = (10808639105689191 : ℚ) / 2 ^ 55 := by
    unfold total_amount
    rw [h1, hl3, hc3]
    norm_num
  refine ⟨h1, ?_, h2, ?_, ?_⟩
  · rw [h1]
    norm_num
  · rw [h2, hl3, hc3]
    norm_num
  · rw [h2, h3]
    norm_num

/-- Filtering the empty strings out of a cons. -/
theorem filter_ne_cons (a : String) (l : List String) :
    List.filter (fun s => !(s == "")) (a :: l)
      = (if a = "" then [] else [a]) ++ List.filter (fun s => !(s == "")) l := by
  by_cases h : a = ""
  · simp [List.filter_cons, h]
  · simp [List.filter_cons, h]

/-- The APN token is never the empty string when an APN is present. -/
theorem apnTok_ne_empty (a : String) : ("APN# ") ++ a ≠ ("") := by
  intro hcon
  have hd := congrArg String.data hcon
  have h2 : (("APN# ") : String).data ++ a.data = [] := hd
  simp at h2

/-- The if-filter form of the APN component agrees with the code's
match form. -/
theorem filter_apn (o : Option String) :
    (if apnComp o = "" then [] else [apnComp o])
      = (match o with
         | some a => if a = "" then [] else [("APN# ") ++ a]
         | none => ([] : List String)) := by
  cases o with
  | none => simp [apnComp]
  | some a =>
    by_cases h : a = ""
    · simp [apnComp, h]
    · simp [apnComp, h, apnTok_ne_empty a]

/-- C4 (counterexample): a display name with leading whitespace and no
`APN` substring is used verbatim, so the rendered description keeps the
inner double space and differs from the claim's trimmed concatenation. -/
theorem c4_counterexample :
    propertyDesc c4row = ("TX  123 Main St")
    ∧ claimPropertyDesc c4row = ("TX 123 Main St")
    ∧ propertyDesc c4row ≠ claimPropertyDesc c4row
    ∧ hasSub (String.toList ("  ")) (propertyDesc c4row).toList = true :=
  ⟨rfl, rfl, by decide, rfl⟩

/-- C4 (amended): the description is the space-separated concatenation
of the non-empty components state, county, base name and APN token, in
that order — where the base name is trimmed (and truncated at the first
`APN`) only when `APN` occurs in the display name, and is the display
name verbatim otherwise. -/
theorem c4_property_desc (r : Row) : propertyDesc r = amendedPropertyDesc r := by
  unfold propertyDesc amendedPropertyDesc propertyParts
  congr 1
  rw [filter_ne_cons, filter_ne_cons, filter_ne_cons, filter_ne_cons]
  rw [filter_apn]
  cases hs : r.state <;> cases hc : r.county <;>
    simp [Option.getD, List.filter_nil]

/-- C6 (counterexample): the first table row's fourth cell is the
billed company's name (`RLV22 LLC` by default), not the unit price
formatted as currency — the price cell appears in the data rows. -/
theorem c6_counterexample :
    headerRow ("RLV22 LLC") = [("Date"), ("MLS"), ("Property"), ("RLV22 LLC")]
    ∧ (headerRow ("RLV22 LLC")).getD 3 ("") ≠ money 200
    ∧ money 200 = ("$200.00") :=
  ⟨rfl, by decide, rfl⟩

/-- C6 (amended): the table's first row is the header
`[Date, MLS, Property, company name]`, and it is followed by one row
per surviving record, in input order, each of the form
`[date cell, MLS cell, property description, unit price as $X.XX]`. -/
theorem c6_table_layout (rows : List Row) (company : String) (p : ℚ)
    (body : List (List String)) (h : tableRows p rows = Except.ok body) :
    tableData rows company p = Except.ok (headerRow company :: body)
    ∧ body = List.map (fun r =>
        [(dateCellE r.listing_date).toOption.getD (""), mlsCell r,
         propertyDesc r, money p]) rows := by
  refine ⟨by unfold tableData; rw [h], ?_⟩
  induction rows generalizing body with
  | nil =>
    unfold tableRows at h
    cases h
    rfl
  | cons r rs ih =>
    unfold tableRows at h
    cases hli : lineItem p r with
    | error e => rw [hli] at h; cases h
    | ok c =>
      rw [hli] at h
      cases ht : tableRows p rs with
      | error e => rw [ht] at h; cases h
      | ok rest =>
        rw [ht] at h
        cases h
        have hc : c = [(dateCellE r.listing_date).toOption.getD (""),
            mlsCell r, propertyDesc r, money p] := by
          unfold lineItem at hli
          cases hd : dateCellE r.listing_date with
          | error e => rw [hd] at hli; cases hli
          | ok dstr => rw [hd] at hli; cases hli; rfl
        rw [List.map_cons, ← ih rest ht, hc]

/-- Witness for C6: a one-row dataset renders as the header followed by
one fully populated data row. -/
theorem c6_witness :
    tableData [c6row] ("RLV22 LLC") 200
      = Except.ok [headerRow ("RLV22 LLC"),
          [("3/7/2025"), ("MLS123"), ("TX Harris Lot 1 APN# 123-45"),
           ("$200.00")]] :=
  (c6_table_layout [c6row] ("RLV22 LLC") 200
    [[("3/7/2025"), ("MLS123"), ("TX Harris Lot 1 APN# 123-45"),
      ("$200.00")]] rfl).1

/-- C8: for a billing month in 1..12 the title line is
`GOODFIRE REALTY LISTINGS - <MONTH NAME UPPERCASED> BILLING`, the month
name being taken from the 1→January .. 12→December table; for a month
outside 1..12 the construction fails with the invalid-date error. -/
theorem c8_title (m : Nat) :
    (1 ≤ m → m ≤ 12 → mkTitle m
        = Except.ok (("GOODFIRE REALTY LISTINGS - ")
            ++ pyUpper (monthNames.getD (m - 1) ("")) ++ (" BILLING")))
    ∧ (¬ (1 ≤ m ∧ m ≤ 12) → mkTitle m = Except.error TitleError.invalidDate)
    ∧ monthNames.getD 0 ("") = ("January")
    ∧ monthNames.getD 11 ("") = ("December")
    ∧ mkTitle 3 = Except.ok ("GOODFIRE REALTY LISTINGS - MARCH BILLING") := by
  refine ⟨fun h1 h2 => ?_, fun h => ?_, rfl, rfl, rfl⟩
  · unfold mkTitle
    rw [if_pos ⟨h1, h2⟩]
  · unfold mkTitle
    rw [if_neg h]

/-- Witness for C8: April yields its uppercased month name, month 13 is
rejected. -/
theorem c8_witness :
    mkTitle 4 = Except.ok ("GOODFIRE REALTY LISTINGS - APRIL BILLING")
    ∧ mkTitle 13 = Except.error TitleError.invalidDate :=
  ⟨((c8_title 4).1 (by decide) (by decide)).trans (by rfl),
   (c8_title 13).2.1 (by decide)⟩

/-- Decimal rendering of the billing years the app accepts: four
digits. -/
theorem reprY (y : Nat) (h1 : 2020 ≤ y) (h2 : y ≤ 2030) :
    (toString y).length = 4
    ∧ (toString y).toList.all (fun c => c.isDigit) = true := by
  interval_cases y <;> exact ⟨rfl, rfl⟩

/-- `%02d` on 0..99 always yields exactly two digits. -/
theorem pad2Spec (n : Nat) (h : n ≤ 99) :
    (pad2 n).length = 2
    ∧ (pad2 n).toList.all (fun c => c.isDigit) = true := by
  interval_cases n <;> exact ⟨rfl, rfl⟩

/-- C9: the download filename is the billing year, a hyphen, the
zero-padded two-digit billing month, a hyphen, the zero-padded
two-digit current day, then the fixed organization suffix; within the
app's input ranges this matches `YYYY-MM-DD_Goodfire_Realty_Billing.pdf`
(four-digit year, two-digit month and day, all digits). -/
theorem c9_filename (y m d : Nat) (hy1 : 2020 ≤ y) (hy2 : y ≤ 2030)
    (hm1 : 1 ≤ m) (hm2 : m ≤ 12) (hd1 : 1 ≤ d) (hd2 : d ≤ 31) :
    filename y m d
      = toString y ++ ("-") ++ pad2 m ++ ("-") ++ pad2 d
          ++ ("_Goodfire_Realty_Billing.pdf")
    ∧ (toString y).length = 4 ∧ (pad2 m).length = 2 ∧ (pad2 d).length = 2
    ∧ ((toString y).toList ++ (pad2 m).toList ++ (pad2 d).toList).all
        (fun c => c.isDigit) = true := by
  refine ⟨rfl, (reprY y hy1 hy2).1, (pad2Spec m (by omega)).1,
    (pad2Spec d (by omega)).1, ?_⟩
  have hy := (reprY y hy1 hy2).2
  have hm := (pad2Spec m (by omega)).2
  have hd := (pad2Spec d (by omega)).2
  simp only [List.all_append, Bool.and_eq_true] at hy hm hd ⊢
  exact ⟨⟨hy, hm⟩, hd⟩

/-- Witness for C9: the spec's example date yields the spec's example
filename. -/
theorem c9_witness :
    filename 2025 3 7 = ("2025-03-07_Goodfire_Realty_Billing.pdf")
    ∧ (toString 2025).length = 4 := by
  have h := c9_filename 2025 3 7 (by decide) (by decide) (by decide)
    (by decide) (by decide) (by decide)
  exact ⟨h.1.trans (by rfl), h.2.1⟩
